import Mathlib

/-!
Shallow embedding of the authentication/session core of the
vibe-budget-tracker backend: the token codec (hono/jwt `sign`/`verify` as
used by `AuthService`), the revocation ledger (`TokenBlacklist` over the
`token_blacklist` and `user_logout_timestamps` tables), the session
authority (`AuthService`, `UserService`), the request-authentication
middleware (`authMiddleware`), the auth routes, and the in-memory
`RateLimiter`.

Modelling conventions:
* Database tables become Lean lists carried in an explicit `Db` state;
  SQL predicates are translated clause by clause (three-valued logic on
  NULL columns noted where it matters).
* `Bun.password.hash` draws a random salt at every call and embeds it in
  the digest, so a digest is modelled as the hashed input paired with a
  salt drawn freshly from a counter in the state; digest equality (the
  string equality used by the SQL lookups) holds only when input and salt
  both coincide.  `Bun.password.verify` re-hashes with the embedded salt,
  so it is modelled as comparison with the stored input.
* hono/jwt `sign` encodes exactly the payload object it is given (it adds
  no claims), so a signed token is modelled as its payload plus the
  signing key, and signature verification succeeds exactly when the key
  matches the server secret (symbolic MAC: forgery is out of model).
* JS `undefined` flowing through number-typed positions is modelled with
  `Option Int` and the actual JS comparison semantics (`undefined > x`
  is `false`).
* Times are integers: seconds since epoch for the auth core, milliseconds
  for the rate limiter (matching `Date.now()`).
-/

/-- Model of a salted one-way digest as produced by `Bun.password.hash`
(argon2id by default, bcrypt where the options say so): the digest string
embeds a salt drawn freshly at every call, so it is modelled as the hashed
input together with that salt.  Two digests are equal as strings only when
both the input and the salt coincide. -/
structure Hashed (α : Type) where
  input : α
  salt : Nat
deriving DecidableEq, Repr

/-- `Bun.password.verify plain digest`: re-hashes `plain` with the salt
embedded in `digest` and compares, i.e. succeeds iff `digest` was produced
from `plain`. -/
def bunPasswordVerify (plain : String) (digest : Hashed String) : Bool :=
  digest.input == plain

/-- The payload shape `AuthTokenPayload` (authService.ts).  The interface
declares `iat` and `exp` as required numbers, but the backend builds every
payload it signs as `Omit<AuthTokenPayload, "iat" | "exp">`, so both are
`Option Int` here and are absent on every token the backend issues. -/
structure JwtPayload where
  userId : String
  email : String
  tokenType : String
  iat : Option Int := none
  exp : Option Int := none
deriving DecidableEq, Repr

/-- A compact signed token as produced by hono/jwt `sign(payload, key,
"HS256")`: the payload is encoded exactly as given (hono adds no claims)
and MAC-signed.  Symbolically the token records the payload and the key it
was signed with; verification succeeds exactly when keys match. -/
structure Jwt where
  payload : JwtPayload
  key : String
deriving DecidableEq, Repr

/-- hono/jwt `verify` expiry clause: `if (payload.exp && payload.exp <=
now) throw JwtTokenExpired` — fails iff `exp` is present, truthy, and
`exp <= now`. -/
def honoExpFails (now : Int) : Option Int → Bool
  | some e => decide (e ≠ 0 ∧ e ≤ now)
  | none => false

/-- hono/jwt `verify` issued-at clause: `if (payload.iat && now <
payload.iat) throw` — fails iff `iat` is present, truthy, and in the
future. -/
def honoIatFails (now : Int) : Option Int → Bool
  | some i => decide (i ≠ 0 ∧ now < i)
  | none => false

/-- hono/jwt `verify(token, key, "HS256")`: checks the MAC signature and
the `exp`/`iat` claims (the backend never sets `nbf`), returning the
decoded payload on success. -/
def honoVerify (now : Int) (token : Jwt) (key : String) : Option JwtPayload :=
  if token.key = key ∧ honoExpFails now token.payload.exp = false
      ∧ honoIatFails now token.payload.iat = false then
    some token.payload
  else
    none

/-- The server signing secret `env.JWT_SECRET` (an arbitrary ≥32-character
string fixed for the process). -/
def JWT_SECRET : String := "0123456789abcdef0123456789abcdef"

/-- A row of the `users` table, restricted to the columns the auth core
reads or writes (`created_at`/`updated_at` and the email-verification
token are never consulted by the claims under study and are elided). -/
structure User where
  id : String
  email : String
  name : String
  password_hash : Hashed String
  email_verified : Bool := false
  password_reset_token : Option String := none
  password_reset_expires : Option Int := none
deriving DecidableEq, Repr

/-- `Omit<User, "password_hash">` — the user object the services return
after destructuring away only the password hash. -/
structure PublicUser where
  id : String
  email : String
  name : String
  email_verified : Bool
  password_reset_token : Option String
  password_reset_expires : Option Int
deriving DecidableEq, Repr

/-- `const { password_hash, ...userWithoutPassword } = user`. -/
def User.publicPart (u : User) : PublicUser :=
  ⟨u.id, u.email, u.name, u.email_verified, u.password_reset_token,
    u.password_reset_expires⟩

/-- A row of the `token_blacklist` table. -/
structure BlacklistRow where
  token_hash : Hashed Jwt
  user_id : Option String
  expires_at : Option Int
deriving DecidableEq, Repr

/-- Backend state: the three tables the auth core touches, the salt
counter feeding `Bun.password.hash`, and the clock (seconds since epoch,
read by `NOW()` / `new Date()` / token verification). -/
structure Db where
  users : List User
  token_blacklist : List BlacklistRow
  user_logout_timestamps : List (String × Int)
  nextSalt : Nat
  now : Int
deriving DecidableEq, Repr

/-- One call of `Bun.password.hash x`: draws the next fresh salt. -/
def Db.hash {α : Type} (db : Db) (x : α) : Hashed α × Db :=
  (⟨x, db.nextSalt⟩, { db with nextSalt := db.nextSalt + 1 })

/-- `TokenBlacklist.blacklistToken`: hashes the raw token, then
`INSERT INTO token_blacklist ... ON CONFLICT (token_hash) DO NOTHING`
with an expiry 8 days out. -/
def TokenBlacklist.blacklistToken (token : Jwt) (userId : Option String)
    (db : Db) : Db :=
  let expiresAt := db.now + 8 * 86400
  let (h, db1) := db.hash token
  if db1.token_blacklist.any (fun r => decide (r.token_hash = h)) then
    db1
  else
    { db1 with
        token_blacklist := db1.token_blacklist ++ [⟨h, userId, some expiresAt⟩] }

/-- `TokenBlacklist.isBlacklisted`: hashes the raw token again (a fresh
salt) and runs `SELECT 1 FROM token_blacklist WHERE token_hash = $hash AND
(expires_at IS NULL OR expires_at > NOW()) LIMIT 1`. -/
def TokenBlacklist.isBlacklisted (token : Jwt) (db : Db) : Bool × Db :=
  let (h, db1) := db.hash token
  (db1.token_blacklist.any fun r =>
      decide (r.token_hash = h) &&
        (match r.expires_at with
          | none => true
          | some e => decide (db1.now < e)),
    db1)

/-- Upsert into `user_logout_timestamps` (`ON CONFLICT (user_id) DO UPDATE
SET logout_at = NOW()`). -/
def upsertLogout : List (String × Int) → String → Int → List (String × Int)
  | [], uid, t => [(uid, t)]
  | (k, v) :: rest, uid, t =>
    if k = uid then (k, t) :: rest else (k, v) :: upsertLogout rest uid t

/-- `TokenBlacklist.blacklistAllUserTokens`: records `NOW()` as the user's
logout-all instant. -/
def TokenBlacklist.blacklistAllUserTokens (userId : String) (db : Db) : Db :=
  { db with
      user_logout_timestamps := upsertLogout db.user_logout_timestamps userId db.now }

/-- JS `>` with a possibly-`undefined` left operand, as in
`tokenIssuedAt > logoutTimestamp`: `undefined > x` evaluates to `false`
(NaN comparison). -/
def jsGt : Option Int → Int → Bool
  | none, _ => false
  | some a, b => decide (b < a)

/-- `TokenBlacklist.isTokenValidForUser`: true when the user has no
logout-all timestamp, else `tokenIssuedAt > logoutTimestamp` with JS
comparison semantics (the middleware passes `decoded.iat`, which may be
`undefined` at runtime). -/
def TokenBlacklist.isTokenValidForUser (userId : String)
    (tokenIssuedAt : Option Int) (db : Db) : Bool :=
  match db.user_logout_timestamps.find? (fun p => decide (p.1 = userId)) with
  | none => true
  | some p => jsGt tokenIssuedAt p.2

/-- `UserService.findByEmail`. -/
def UserService.findByEmail (email : String) (db : Db) : Option User :=
  db.users.find? fun u => decide (u.email = email)

/-- `UserService.findById`. -/
def UserService.findById (id : String) (db : Db) : Option User :=
  db.users.find? fun u => decide (u.id = id)

/-- `UserService.verifyPassword` (`Bun.password.verify`). -/
def UserService.verifyPassword (plain : String) (hashed : Hashed String) : Bool :=
  bunPasswordVerify plain hashed

/-- Row guard of the `UPDATE` in `UserService.resetPassword`:
`WHERE password_reset_token = $token AND password_reset_expires > NOW()`
(a NULL token or NULL expiry fails the comparison under SQL three-valued
logic). -/
def resetGuard (token : String) (now : Int) (u : User) : Bool :=
  decide (u.password_reset_token = some token) &&
    (match u.password_reset_expires with
      | none => false
      | some e => decide (now < e))

/-- Rows returned by Bun's SQL client for the guarded `UPDATE` in
`UserService.resetPassword`: the statement has no `RETURNING` clause, so
the rows array is EMPTY no matter how many rows were affected — the
affected-row count is only exposed on the separate `.count` property,
which this method does not read (contrast `BudgetService.delete`, which
reads `result.count` after its non-returning `DELETE`). -/
def updateWithoutReturningRows : List User := []

/-- `UserService.resetPassword`: hashes the new password (bcrypt, fresh
salt), runs one guarded `UPDATE` that replaces the hash and clears the
reset token and expiry on every matching row, then returns
`result.length > 0` — where `result` is the empty rows array of the
non-`RETURNING` `UPDATE`, so the returned boolean is false even when rows
were matched and mutated. -/
def UserService.resetPassword (token newPassword : String) (db : Db) :
    Bool × Db :=
  let (h, db1) := db.hash newPassword
  let updated := db1.users.map fun u =>
    if resetGuard token db1.now u then
      { u with
          password_hash := h,
          password_reset_token := none,
          password_reset_expires := none }
    else u
  (decide (0 < updateWithoutReturningRows.length), { db1 with users := updated })

/-- `AuthService.generateAccessToken`: signs `{userId, email, tokenType:
"access"}` — note the payload is built as `Omit<AuthTokenPayload, "iat" |
"exp">`, so neither claim is present. -/
def AuthService.generateAccessToken (user : User) : Jwt :=
  ⟨{ userId := user.id, email := user.email, tokenType := "access" }, JWT_SECRET⟩

/-- `AuthService.generateRefreshToken`: same payload with `tokenType:
"refresh"`. -/
def AuthService.generateRefreshToken (user : User) : Jwt :=
  ⟨{ userId := user.id, email := user.email, tokenType := "refresh" }, JWT_SECRET⟩

/-- `AuthService.verifyToken(token, expectedType?)`: hono verification,
then JS-truthiness presence checks on `userId`/`email`/`tokenType`, then
the optional kind check. -/
def AuthService.verifyToken (now : Int) (token : Jwt)
    (expectedType : Option String) : Option JwtPayload :=
  match honoVerify now token JWT_SECRET with
  | none => none
  | some payload =>
    if payload.userId = "" ∨ payload.email = "" ∨ payload.tokenType = "" then
      none
    else
      match expectedType with
      | none => some payload
      | some t => if payload.tokenType = t then some payload else none

/-- `AuthService.verifyAccessToken`. -/
def AuthService.verifyAccessToken (now : Int) (token : Jwt) : Option JwtPayload :=
  AuthService.verifyToken now token (some "access")

/-- `AuthService.getUserFromToken`: verify with NO expected kind, then
resolve the subject; strips only the password hash. -/
def AuthService.getUserFromToken (token : Jwt) (db : Db) : Option PublicUser :=
  match AuthService.verifyToken db.now token none with
  | none => none
  | some payload =>
    match UserService.findById payload.userId db with
    | none => none
    | some u => some u.publicPart

/-- `AuthService.login`: email lookup, password check, token pair; both
failure causes throw the same `Error("Invalid email or password")`. -/
def AuthService.login (email password : String) (db : Db) :
    Except String (PublicUser × Jwt × Jwt) :=
  match UserService.findByEmail email db with
  | none => .error "Invalid email or password"
  | some user =>
    if UserService.verifyPassword password user.password_hash then
      .ok (user.publicPart, AuthService.generateAccessToken user,
        AuthService.generateRefreshToken user)
    else
      .error "Invalid email or password"

/-- `/(?=.*[a-z])/` on ASCII. -/
def isAsciiLower (c : Char) : Bool := decide ('a' ≤ c ∧ c ≤ 'z')

/-- `/(?=.*[A-Z])/` on ASCII. -/
def isAsciiUpper (c : Char) : Bool := decide ('A' ≤ c ∧ c ≤ 'Z')

/-- `/(?=.*\d)/` on ASCII. -/
def isAsciiDigit (c : Char) : Bool := decide ('0' ≤ c ∧ c ≤ '9')

/-- `/(?=.*[@$!%*?&])/`. -/
def isPasswordSpecial (c : Char) : Bool :=
  ['@', '$', '!', '%', '*', '?', '&'].any fun d => decide (d = c)

/-- `AuthService.validatePassword`: length and the four character-class
checks, collecting error messages; `valid` iff no errors. -/
def AuthService.validatePassword (password : String) : Bool × List String :=
  let cs := password.toList
  let errors :=
    (if password.length < 8 then
        ["Password must be at least 8 characters long"] else []) ++
    (if cs.any isAsciiLower then []
      else ["Password must contain at least one lowercase letter"]) ++
    (if cs.any isAsciiUpper then []
      else ["Password must contain at least one uppercase letter"]) ++
    (if cs.any isAsciiDigit then []
      else ["Password must contain at least one number"]) ++
    (if cs.any isPasswordSpecial then []
      else ["Password must contain at least one special character (@$!%*?&)"])
  (errors.isEmpty, errors)

/-- `AuthService.resetPassword`: validates the new password, then calls
`UserService.resetPassword`; every failure is caught internally and
surfaced only as the boolean `false`. -/
def AuthService.resetPassword (token newPassword : String) (db : Db) :
    Bool × Db :=
  if (AuthService.validatePassword newPassword).1 then
    UserService.resetPassword token newPassword db
  else
    (false, db)

/-- Outcome of `authMiddleware`: a 401 JSON response with the given error
string, or `next()` with the user attached to the context. -/
inductive MwResult where
  | unauthorized (error : String)
  | ok (user : PublicUser)
deriving DecidableEq, Repr

/-- `authMiddleware` (middleware/auth.ts), the request-authentication
gate: cookie presence, blacklist lookup, `verifyToken` with NO expected
kind, logout-all check on `decoded.iat`, then subject resolution. -/
def authMiddleware (cookie : Option Jwt) (db : Db) : MwResult × Db :=
  match cookie with
  | none => (.unauthorized "No access token provided. Please login first.", db)
  | some accessToken =>
    let (bl, db1) := TokenBlacklist.isBlacklisted accessToken db
    if bl then
      (.unauthorized "Token has been invalidated. Please login again.", db1)
    else
      match AuthService.verifyToken db1.now accessToken none with
      | none =>
        (.unauthorized "Invalid or expired access token. Please refresh your session.", db1)
      | some decoded =>
        if TokenBlacklist.isTokenValidForUser decoded.userId decoded.iat db1 then
          match AuthService.getUserFromToken accessToken db1 with
          | none =>
            (.unauthorized "Invalid or expired access token. Please refresh your session.", db1)
          | some user => (.ok user, db1)
        else
          (.unauthorized "Session has been terminated. Please login again.", db1)

/-- Outcome of `GET /auth/me`. -/
inductive MeResult where
  | err (status : Nat) (error : String)
  | okUser (user : PublicUser)
deriving DecidableEq, Repr

/-- `auth.get("/me")`: cookie presence then `getUserFromToken` — no
blacklist lookup, no logout-all check, no kind check. -/
def authMe (cookie : Option Jwt) (db : Db) : MeResult :=
  match cookie with
  | none => .err 401 "No access token provided"
  | some accessToken =>
    match AuthService.getUserFromToken accessToken db with
    | none => .err 401 "Invalid or expired access token"
    | some user => .okUser user

/-- HTTP status plus success flag and error message of a JSON response. -/
structure ApiStatus where
  status : Nat
  success : Bool
  error : Option String := none
deriving DecidableEq, Repr

/-- `auth.post("/login")`: maps the service result onto 200, or 401
carrying the thrown message. -/
def loginRoute (email password : String) (db : Db) : ApiStatus :=
  match AuthService.login email password db with
  | .ok _ => { status := 200, success := true }
  | .error message => { status := 401, success := false, error := some message }

/-- `auth.post("/logout")`: best-effort `verifyAccessToken` then
`blacklistToken`; always answers 200 and clears the cookies. -/
def logoutRoute (cookie : Option Jwt) (db : Db) : ApiStatus × Db :=
  match cookie with
  | none => ({ status := 200, success := true }, db)
  | some accessToken =>
    match AuthService.verifyAccessToken db.now accessToken with
    | none => ({ status := 200, success := true }, db)
    | some decoded =>
      ({ status := 200, success := true },
        TokenBlacklist.blacklistToken accessToken (some decoded.userId) db)

/-- `auth.post("/reset-password")`: the zod validator (`token` nonempty,
`password` at least 8 characters) answers 400 by itself; the handler then
calls `AuthService.resetPassword` and returns 200 WITHOUT consulting its
boolean result (the service catches its own errors, so the handler's
catch-400 branch is unreachable). -/
def resetPasswordRoute (token password : String) (db : Db) : ApiStatus × Db :=
  if token.length < 1 ∨ password.length < 8 then
    ({ status := 400, success := false, error := some "Validation failed" }, db)
  else
    let r := AuthService.resetPassword token password db
    ({ status := 200, success := true }, r.2)

/-- One client's entry in a `RateLimiter`'s `requests` map. -/
structure RLEntry where
  count : Nat
  resetTime : Int
deriving DecidableEq, Repr

/-- The `requests` map of a `RateLimiter` (JS `Map`: insertion order,
`set` updates in place). -/
abbrev RLState := List (String × RLEntry)

/-- JS `Map.set`: replace in place if the key exists, else append. -/
def rlSet : RLState → String → RLEntry → RLState
  | [], cid, e => [(cid, e)]
  | (k, v) :: rest, cid, e =>
    if k = cid then (cid, e) :: rest else (k, v) :: rlSet rest cid e

/-- `Math.ceil(x / 1000)` for an integer `x ≥ 0` (the only way the code
uses it: `x` is a remaining number of milliseconds). -/
def ceilDiv1000 (x : Int) : Int := (x + 999) / 1000

/-- `RateLimiter.isAllowed`: fresh window on first sight or after the
deadline passes (`now > resetTime`), reject with `Math.ceil((resetTime -
now) / 1000)` once the count reaches the ceiling, else increment. -/
def RateLimiter.isAllowed (windowSize : Int) (maxRequests : Nat)
    (clientId : String) (now : Int) (s : RLState) :
    (Bool × Option Int) × RLState :=
  match s.find? (fun p => decide (p.1 = clientId)) with
  | none => ((true, none), rlSet s clientId ⟨1, now + windowSize⟩)
  | some p =>
    if p.2.resetTime < now then
      ((true, none), rlSet s clientId ⟨1, now + windowSize⟩)
    else if maxRequests ≤ p.2.count then
      ((false, some (ceilDiv1000 (p.2.resetTime - now))), s)
    else
      ((true, none), rlSet s clientId ⟨p.2.count + 1, p.2.resetTime⟩)

/-- Run a sequence of requests from one client through the limiter,
keeping only the evolving state. -/
def RateLimiter.run (windowSize : Int) (maxRequests : Nat) (clientId : String) :
    List Int → RLState → RLState
  | [], s => s
  | t :: ts, s =>
    RateLimiter.run windowSize maxRequests clientId ts
      (RateLimiter.isAllowed windowSize maxRequests clientId t s).2

/-! Concrete fixtures used by the evaluation theorems below. -/

/-- A registered user (salt 0 was consumed hashing the password at
registration, so the state's salt counter starts at 1). -/
def alice : User :=
  { id := "u1", email := "alice@example.com", name := "Alice",
    password_hash := ⟨"Correct1!", 0⟩ }

/-- Clean backend state containing only `alice`. -/
def db0 : Db :=
  { users := [alice], token_blacklist := [], user_logout_timestamps := [],
    nextSalt := 1, now := 1000 }

/-- The access token `generateAccessToken` issues for `alice`. -/
def aliceAccess : Jwt := AuthService.generateAccessToken alice

/-- The refresh token `generateRefreshToken` issues for `alice`. -/
def aliceRefresh : Jwt := AuthService.generateRefreshToken alice

/-- State after `POST /auth/logout` with `alice`'s access token: its
fingerprint row is in the blacklist. -/
def dbAfterLogout : Db := (logoutRoute (some aliceAccess) db0).2

/-- State after `POST /auth/logout-all` for `alice` at instant 1000,
observed at instant 2000. -/
def dbAfterLogoutAll : Db :=
  { TokenBlacklist.blacklistAllUserTokens "u1" db0 with now := 2000 }

/-- An arbitrary raw token as blacklist input. -/
def tok8 : Jwt := ⟨⟨"u9", "x@y.z", "access", none, none⟩, JWT_SECRET⟩

/-- State after blacklisting `tok8` once. -/
def db8a : Db := TokenBlacklist.blacklistToken tok8 none db0

/-- State after blacklisting `tok8` a second time. -/
def db8b : Db := TokenBlacklist.blacklistToken tok8 none db8a

/-- A user holding a live password-reset token. -/
def bob : User :=
  { id := "u2", email := "bob@example.com", name := "Bob",
    password_hash := ⟨"Oldpass1!", 0⟩,
    password_reset_token := some "rst", password_reset_expires := some 5000 }

/-- State for the password-reset scenarios. -/
def db9 : Db :=
  { users := [bob], token_blacklist := [], user_logout_timestamps := [],
    nextSalt := 1, now := 1000 }

/-- State in which `alice` has a logout-all timestamp (1500) recorded,
observed at instant 2000. -/
def dbMe : Db :=
  { users := [alice], token_blacklist := [],
    user_logout_timestamps := [("u1", 1500)], nextSalt := 1, now := 2000 }

/-- C1: the claim says a token blacklisted by logout is afterwards
rejected by the request-authentication middleware with a 401.  The code
violates this: `blacklistToken` stores a salted `Bun.password.hash` digest
and `isBlacklisted` recomputes a digest with a fresh salt, so the equality
lookup never matches — after `POST /auth/logout` inserts the blacklist row,
`isBlacklisted` still answers false and the middleware accepts the very
token that was just blacklisted. -/
theorem C1_blacklisted_token_still_accepted :
    dbAfterLogout.token_blacklist.length = 1
      ∧ (TokenBlacklist.isBlacklisted aliceAccess dbAfterLogout).1 = false
      ∧ (authMiddleware (some aliceAccess) dbAfterLogout).1
          = MwResult.ok alice.publicPart := by
  decide

/-- C2: the claim says the middleware accepts a token only if its kind is
access, so a refresh token presented as the access token is rejected.  The
code violates this: `authMiddleware` calls `verifyToken` with no
`expectedType`, so a refresh token in the `access_token` cookie is
accepted end to end — even though `verifyToken` with `"access"` would have
rejected it. -/
theorem C2_refresh_token_accepted_as_access :
    (authMiddleware (some aliceRefresh) db0).1 = MwResult.ok alice.publicPart
      ∧ AuthService.verifyToken db0.now aliceRefresh (some "access") = none
      ∧ aliceRefresh.payload.tokenType = "refresh" := by
  decide

/-- C3: the claim says every issued token carries an expiry (TTL 900 s for
access, 7 days for refresh) and an elapsed access token fails verification
as expired.  The code violates this: the payloads are built as
`Omit<AuthTokenPayload, "iat" | "exp">` and hono's `sign` adds no claims,
so issued tokens carry neither `exp` nor `iat` and hono's `verify` accepts
them at every point in time — no token ever fails as expired. -/
theorem C3_issued_tokens_never_expire (u : User) (now : Int) :
    (AuthService.generateAccessToken u).payload.exp = none
      ∧ (AuthService.generateAccessToken u).payload.iat = none
      ∧ (AuthService.generateRefreshToken u).payload.exp = none
      ∧ honoVerify now (AuthService.generateAccessToken u) JWT_SECRET
          = some (AuthService.generateAccessToken u).payload
      ∧ honoVerify now (AuthService.generateRefreshToken u) JWT_SECRET
          = some (AuthService.generateRefreshToken u).payload := by
  refine ⟨rfl, rfl, rfl, ?_, ?_⟩ <;>
    simp [honoVerify, honoExpFails, honoIatFails,
      AuthService.generateAccessToken, AuthService.generateRefreshToken]

/-- C4: the claim says after logout-all a token issued at or before the
recorded instant fails the middleware while a token issued strictly after
passes, and that `isTokenValidForUser` is strict greater-than with a true
default.  The function-level boundary policy does hold (conjuncts 3–6),
but the composed system violates the claim: issued tokens carry no `iat`,
the middleware hands `undefined` to `isTokenValidForUser`, the JS
comparison `undefined > logoutTimestamp` is false, and therefore EVERY
token of the user — including one issued strictly after the logout-all
instant (the fixture's clock is 2000, past the recorded 1000) — is
rejected. -/
theorem C4_fresh_token_rejected_after_logout_all :
    (AuthService.generateAccessToken alice).payload.iat = none
      ∧ (authMiddleware (some aliceAccess) dbAfterLogoutAll).1
          = MwResult.unauthorized "Session has been terminated. Please login again."
      ∧ TokenBlacklist.isTokenValidForUser "u1" (some 1001) dbAfterLogoutAll = true
      ∧ TokenBlacklist.isTokenValidForUser "u1" (some 1000) dbAfterLogoutAll = false
      ∧ TokenBlacklist.isTokenValidForUser "u1" (some 999) dbAfterLogoutAll = false
      ∧ TokenBlacklist.isTokenValidForUser "u1" (some 0) db0 = true := by
  decide

/-- C5: the claim says `POST /auth/reset-password` answers 200 exactly on
success and 400 on an invalid/expired token or weak password.  The code
violates this: `AuthService.resetPassword` catches every failure and only
returns `false`, and the route handler never reads that boolean, so an
unknown reset token and a complexity-failing password both get a 200
"Password reset successfully" (only the zod length/presence check can
produce a 400). -/
theorem C5_reset_password_route_200_on_failure :
    (resetPasswordRoute "no-such-token" "Str0ng!pass" db0).1
        = { status := 200, success := true }
      ∧ (AuthService.resetPassword "no-such-token" "Str0ng!pass" db0).1 = false
      ∧ (resetPasswordRoute "tok" "weakpassword" db0).1
          = { status := 200, success := true }
      ∧ (AuthService.validatePassword "weakpassword").1 = false
      ∧ (AuthService.validatePassword "Str0ng!pass").1 = true := by
  decide

/-- C8: the claim says re-blacklisting the same raw token is a no-op on
the stored blacklist state thanks to `ON CONFLICT (token_hash) DO
NOTHING`.  The code violates the no-op part: each call hashes the token
with a fresh salt, the two digests differ, the conflict clause never
fires, and the second call inserts a second row.  The call indeed does not
error and the rejection outcome is unchanged (it is false both before and
after, per C1). -/
theorem C8_reblacklist_inserts_second_row :
    db8a.token_blacklist.length = 1
      ∧ db8b.token_blacklist.length = 2
      ∧ db8b.token_blacklist ≠ db8a.token_blacklist
      ∧ (TokenBlacklist.isBlacklisted tok8 db8b).1
          = (TokenBlacklist.isBlacklisted tok8 db8a).1 := by
  decide

/-- C6 counterexample: with ceiling 1 and window 1000 ms, the first
request at time 0 is allowed and opens a window with deadline 1000; the
second request at time 1000 is still inside the window (the code only
resets when `now > resetTime`), is rejected, but carries retry-after
`Math.ceil((1000 - 1000) / 1000) = 0` — not a positive value as the claim
requires. -/
theorem C6_boundary_retry_after_not_positive :
    (RateLimiter.isAllowed 1000 1 "c" 0 []).1 = (true, none)
      ∧ (RateLimiter.isAllowed 1000 1 "c" 1000
            (RateLimiter.isAllowed 1000 1 "c" 0 []).2).1 = (false, some 0) := by
  decide

/-- Helper: a list maps to itself under a function that fixes each of its
members. -/
theorem list_map_fix {α : Type} (l : List α) (f : α → α)
    (h : ∀ x ∈ l, f x = x) : l.map f = l := by
  induction l with
  | nil => rfl
  | cons a t ih =>
    simp only [List.map_cons, h a (by simp)]
    rw [ih fun x hx => h x (by simp [hx])]

/-- Helper: inside an open window (deadline `R`), every further request
from the client increments the sole counter entry by one as long as the
count stays below the ceiling. -/
theorem rl_run_inWindow (W : Int) (maxRequests : Nat) (cid : String) (R : Int)
    (ts : List Int) : ∀ c : Nat, c + ts.length ≤ maxRequests →
    (∀ x ∈ ts, x ≤ R) →
    RateLimiter.run W maxRequests cid ts [(cid, ⟨c, R⟩)]
      = [(cid, ⟨c + ts.length, R⟩)] := by
  induction ts with
  | nil => intro c _ _; simp [RateLimiter.run]
  | cons t ts ih =>
    intro c hc hin
    have ht : t ≤ R := hin t (by simp)
    have hexp : ¬ (R < t) := by omega
    have hlt : ¬ (maxRequests ≤ c) := by
      simp only [List.length_cons] at hc; omega
    have hstep : (RateLimiter.isAllowed W maxRequests cid t [(cid, ⟨c, R⟩)]).2
        = [(cid, ⟨c + 1, R⟩)] := by
      simp [RateLimiter.isAllowed, List.find?, rlSet, hexp, hlt]
    simp only [RateLimiter.run, hstep]
    have := ih (c + 1) (by simp only [List.length_cons] at hc; omega)
      (fun x hx => hin x (by simp [hx]))
    rw [this]
    have : c + 1 + ts.length = c + (ts.length + 1) := by omega
    simp [this]

/-- C6 (amended): with ceiling `maxRequests ≥ 1` and window `W`, after the
first request opens a window with deadline `t0 + W` and `maxRequests - 1`
further requests arrive inside it, the next request inside the window is
rejected with retry-after `⌈(deadline - now) / 1000⌉`, which is NONNEGATIVE
— positive whenever the request arrives strictly before the deadline, but
zero at the deadline instant itself (the correction the counterexample
forces) — and the first request arriving after the deadline has passed is
allowed with the entry replaced by a fresh window at count 1. -/
theorem C6_rate_limiter_window (W : Int) (maxRequests : Nat) (cid : String)
    (t0 t tR : Int) (ts : List Int) (s0 sN : RLState)
    (hmax : 1 ≤ maxRequests) (hlen : ts.length = maxRequests - 1)
    (hin : ∀ x ∈ ts, x ≤ t0 + W) (ht : t ≤ t0 + W) (htR : t0 + W < tR)
    (hs0 : s0 = (RateLimiter.isAllowed W maxRequests cid t0 []).2)
    (hsN : sN = RateLimiter.run W maxRequests cid ts s0) :
    sN = [(cid, ⟨maxRequests, t0 + W⟩)]
      ∧ (RateLimiter.isAllowed W maxRequests cid t sN).1
          = (false, some (ceilDiv1000 (t0 + W - t)))
      ∧ 0 ≤ ceilDiv1000 (t0 + W - t)
      ∧ (t < t0 + W → 1 ≤ ceilDiv1000 (t0 + W - t))
      ∧ (RateLimiter.isAllowed W maxRequests cid tR sN).1 = (true, none)
      ∧ (RateLimiter.isAllowed W maxRequests cid tR sN).2
          = [(cid, ⟨1, tR + W⟩)] := by
  have hs0v : s0 = [(cid, ⟨1, t0 + W⟩)] := by
    subst hs0; simp [RateLimiter.isAllowed, List.find?, rlSet]
  have hone : 1 + ts.length = maxRequests := by omega
  have hsNv : sN = [(cid, ⟨maxRequests, t0 + W⟩)] := by
    subst hsN
    rw [hs0v, rl_run_inWindow W maxRequests cid (t0 + W) ts 1 (by omega) hin,
      hone]
  have hnt : ¬ (t0 + W < t) := by omega
  refine ⟨hsNv, ?_, by unfold ceilDiv1000; omega,
    fun h => by unfold ceilDiv1000; omega, ?_, ?_⟩
  · simp [hsNv, RateLimiter.isAllowed, List.find?, hnt]
  · simp [hsNv, RateLimiter.isAllowed, List.find?, htR, rlSet]
  · simp [hsNv, RateLimiter.isAllowed, List.find?, htR, rlSet]

/-- Witness for C6 (amended): ceiling 2, window 1000 ms, requests at 0 and
500 fill the window; the request at 700 is rejected with retry-after
`⌈(1000 - 700)/1000⌉ = 1`. -/
theorem C6_rate_limiter_window_witness :
    (RateLimiter.isAllowed 1000 2 "c" 700
        (RateLimiter.run 1000 2 "c" [500]
          (RateLimiter.isAllowed 1000 2 "c" 0 []).2)).1
      = (false, some (ceilDiv1000 (0 + 1000 - 700))) :=
  (C6_rate_limiter_window 1000 2 "c" 0 700 3000 [500] _ _ (by decide)
    (by decide) (by decide) (by decide) (by decide) rfl rfl).2.1

/-- C7: a login failing on a wrong password for an existing email and a
login failing on a nonexistent email produce the same response: status
401, success false, and the identical message "Invalid email or password"
— `AuthService.login` throws the same error for both causes and the route
maps any thrown message to 401. -/
theorem C7_login_failures_indistinguishable (db : Db) (e1 p1 e2 p2 : String)
    (u : User) (h1 : UserService.findByEmail e1 db = some u)
    (h2 : UserService.verifyPassword p1 u.password_hash = false)
    (h3 : UserService.findByEmail e2 db = none) :
    loginRoute e1 p1 db = loginRoute e2 p2 db
      ∧ loginRoute e1 p1 db
          = { status := 401, success := false,
              error := some "Invalid email or password" } := by
  constructor <;> simp [loginRoute, AuthService.login, h1, h2, h3]

/-- Witness for C7: `alice` exists with a wrong password, `nobody` does
not exist; the two responses coincide. -/
theorem C7_login_failures_indistinguishable_witness :
    loginRoute "alice@example.com" "wrong" db0
        = loginRoute "nobody@example.com" "whatever" db0
      ∧ loginRoute "alice@example.com" "wrong" db0
          = { status := 401, success := false,
              error := some "Invalid email or password" } :=
  C7_login_failures_indistinguishable db0 "alice@example.com" "wrong"
    "nobody@example.com" "whatever" alice (by decide) (by decide) (by decide)

/-- Helper: a user row that has just gone through the reset update no
longer matches the reset guard (its stored token is either cleared by the
update or was not `tok` to begin with). -/
theorem resetGuard_after_update (tok : String) (now : Int)
    (h : Hashed String) (u : User) :
    resetGuard tok now
      (if resetGuard tok now u then
        { u with
            password_hash := h,
            password_reset_token := none,
            password_reset_expires := none }
      else u) = false := by
  cases hb : resetGuard tok now u with
  | false => simp [hb]
  | true => simp [hb, resetGuard]

/-- C9: the claim says the first `resetPassword` call with a live token
succeeds and only a second call with the same token fails.  The single-use
substance holds at the database level — the guarded update replaces the
hash and clears the token, and a second call leaves every user row
unchanged — but the code reports failure even on the successful first
call: `result.length > 0` inspects the rows array of a non-`RETURNING`
`UPDATE`, which Bun's SQL client leaves empty (the affected count is only
on `.count`), so `UserService.resetPassword` and with it
`AuthService.resetPassword` return false although the matching row was
just updated. -/
theorem C9_reset_reports_failure_on_success (db : Db) (tok pw : String)
    (u : User) (hv : (AuthService.validatePassword pw).1 = true)
    (hu : u ∈ db.users) (hg : resetGuard tok db.now u = true) :
    (AuthService.resetPassword tok pw db).1 = false
      ∧ { u with
            password_hash := ⟨pw, db.nextSalt⟩,
            password_reset_token := none,
            password_reset_expires := none }
          ∈ (AuthService.resetPassword tok pw db).2.users
      ∧ (AuthService.resetPassword tok pw
          (AuthService.resetPassword tok pw db).2).1 = false
      ∧ (AuthService.resetPassword tok pw
          (AuthService.resetPassword tok pw db).2).2.users
        = (AuthService.resetPassword tok pw db).2.users := by
  simp only [AuthService.resetPassword, hv, if_true, UserService.resetPassword,
    Db.hash]
  refine ⟨by simp [updateWithoutReturningRows], ?_,
    by simp [updateWithoutReturningRows], ?_⟩
  · exact List.mem_map.mpr ⟨u, hu, by simp [hg]⟩
  · exact list_map_fix _ _ fun v hv' => by
      obtain ⟨w, hw, rfl⟩ := List.mem_map.mp hv'
      simp [resetGuard_after_update tok db.now ⟨pw, db.nextSalt⟩ w]

/-- Witness for C9: `bob` holds the live token "rst"; resetting with
"Newpass1!" updates his row yet reports false, and a second call changes
nothing. -/
theorem C9_reset_reports_failure_on_success_witness :
    (AuthService.resetPassword "rst" "Newpass1!" db9).1 = false
      ∧ { bob with
            password_hash := ⟨"Newpass1!", 1⟩,
            password_reset_token := none,
            password_reset_expires := none }
          ∈ (AuthService.resetPassword "rst" "Newpass1!" db9).2.users
      ∧ (AuthService.resetPassword "rst" "Newpass1!"
          (AuthService.resetPassword "rst" "Newpass1!" db9).2).1 = false
      ∧ (AuthService.resetPassword "rst" "Newpass1!"
          (AuthService.resetPassword "rst" "Newpass1!" db9).2).2.users
        = (AuthService.resetPassword "rst" "Newpass1!" db9).2.users :=
  C9_reset_reports_failure_on_success db9 "rst" "Newpass1!" bob (by decide)
    (by decide) (by decide)

/-- C10: `GET /auth/me` answers 200 with the user for every cookie token
whose signature verifies, whose `userId`/`email`/`tokenType` fields are
present, and whose subject resolves — with no constraint on the token's
kind; its result depends only on the `users` table and the clock, not on
the blacklist or the logout timestamps; and concretely, in a state where
the request-authentication middleware rejects `alice`'s tokens (a recorded
logout-all timestamp), `/auth/me` still answers 200 for her access token
and even for her refresh token placed in the `access_token` cookie. -/
theorem C10_me_ignores_revocation (db : Db) (tok : Jwt) (u : User)
    (hkey : tok.key = JWT_SECRET)
    (hexp : honoExpFails db.now tok.payload.exp = false)
    (hiat : honoIatFails db.now tok.payload.iat = false)
    (hid : ¬ tok.payload.userId = "") (hemail : ¬ tok.payload.email = "")
    (hkind : ¬ tok.payload.tokenType = "")
    (huser : UserService.findById tok.payload.userId db = some u) :
    authMe (some tok) db = MeResult.okUser u.publicPart
      ∧ (∀ db2 : Db, db2.users = db.users → db2.now = db.now →
          authMe (some tok) db2 = authMe (some tok) db)
      ∧ (authMiddleware (some aliceAccess) dbMe).1
          = MwResult.unauthorized "Session has been terminated. Please login again."
      ∧ authMe (some aliceAccess) dbMe = MeResult.okUser alice.publicPart
      ∧ authMe (some aliceRefresh) dbMe = MeResult.okUser alice.publicPart := by
  refine ⟨?_, ?_, by decide, by decide, by decide⟩
  · simp [authMe, AuthService.getUserFromToken, AuthService.verifyToken,
      honoVerify, hkey, hexp, hiat, hid, hemail, hkind, huser]
  · intro db2 h1 h2
    simp [authMe, AuthService.getUserFromToken, AuthService.verifyToken,
      honoVerify, UserService.findById, h1, h2]

/-- Witness for C10: `alice`'s access token in the logout-all state gets a
200 from `/auth/me`. -/
theorem C10_me_ignores_revocation_witness :
    authMe (some aliceAccess) dbMe = MeResult.okUser alice.publicPart :=
  (C10_me_ignores_revocation dbMe aliceAccess alice rfl rfl rfl (by decide)
    (by decide) (by decide) (by decide)).1
